import Mathlib

/-!
Verification of the onboardapis polling data layer.

This file gives a shallow embedding, in Lean 4, of the components of
`src/onboardapis/data.py` and `src/onboardapis/trains/__init__.py` that the
specification talks about: `ScheduledEvent`, `Position`, `DataStorage`,
`DataConnector`, `PollingDataConnector` (its polling loop `_run`, `stop`,
`reset`, the `connected` property), and `_LazyStation.connections`
(the lazy, TTL-cached attribute).  Pure Python code becomes Lean functions;
the background thread becomes an explicit labelled transition system;
Python floats used for clock values become exact rationals; integer
nanosecond arithmetic of the scheduling formula becomes `Int` arithmetic;
code that raises becomes `Except`-valued.
-/

namespace Onboardapis

/-! ## Python value conventions

Optional Python values are `Option`; Python `None` is `none`.
For `ScheduledEvent.__init__` the expression `actual or scheduled` depends on
Python truthiness, so we model the value domain of a scheduled event as
`Option ℤ` (where `none` is Python `None` and `some n` an integer) together
with the Python truthiness test: `None` and `0` are falsy. -/

def pyTruthy : Option ℤ → Bool
  | none => false
  | some n => n != 0

/-- Errors raised by the embedded Python code fragments. -/
inductive PyError
  | typeError
deriving DecidableEq

/-- The Python `float(x)` builtin applied to an optional numeric slot: on a number it
returns the number, on `None` it raises `TypeError: float() argument must not
be NoneType`. -/
def pyFloat (x : Option ℚ) : Except PyError ℚ :=
  match x with
  | none => Except.error PyError.typeError
  | some q => Except.ok q

/-! ## ScheduledEvent (`data.py` lines 59–93) -/

/-- `ScheduledEvent` over the Python value domain `Option ℤ`
(`__slots__ = ("scheduled", "actual")`). -/
structure ScheduledEvent where
  scheduled : Option ℤ
  actual : Option ℤ
deriving DecidableEq

/-- `ScheduledEvent.__init__(self, scheduled, actual=None)`:
`self.scheduled = scheduled; self.actual = actual or scheduled`.
Python `or` returns its left operand when that operand is truthy and its
right operand otherwise; a caller that omits `actual` passes the default
`None`. -/
def ScheduledEvent.init (scheduled actual : Option ℤ) : ScheduledEvent :=
  { scheduled := scheduled
    actual := if pyTruthy actual then actual else scheduled }

/-! ## Position (`data.py` lines 96–201) -/

/-- `Position.__slots__ = ("_latitude", "_longitude", "_altitude", "_heading")`.
Latitude and longitude are required constructor arguments; altitude and
heading default to `None`.  Python floats are modelled as exact rationals. -/
structure Position where
  lat : ℚ
  lon : ℚ
  alt : Option ℚ
  hdg : Option ℚ
deriving DecidableEq

/-- The `latitude` property: `return float(self._latitude)`; the slot is
always a number, so this never raises. -/
def Position.latitude (p : Position) : ℚ := p.lat

/-- The `longitude` property: `return float(self._longitude)`. -/
def Position.longitude (p : Position) : ℚ := p.lon

/-- The `altitude` property: `return float(self._altitude)`.  The slot may be
`None`, and `float(None)` raises `TypeError`. -/
def Position.altitude (p : Position) : Except PyError ℚ := pyFloat p.alt

/-- The `bearing` property: `return float(self._heading)`.  The slot may be
`None`, and `float(None)` raises `TypeError`. -/
def Position.bearing (p : Position) : Except PyError ℚ := pyFloat p.hdg

/-- Modelled from the spec: `coordinates_decimal_to_dms` lives in the
`conversions` module, which is not among the provided source files; the spec
declares coordinate-format conversion helpers out of scope, "treated as a pure
utility function with a defined contract".  We model it as the total pure
degrees/minutes/seconds decomposition of the two coordinates. -/
def coordinates_decimal_to_dms (c : ℚ × ℚ) : (ℤ × ℤ × ℚ) × (ℤ × ℤ × ℚ) :=
  let dms : ℚ → ℤ × ℤ × ℚ := fun x =>
    let d : ℤ := ⌊x⌋
    let m : ℤ := ⌊(x - d) * 60⌋
    (d, m, ((x - d) * 60 - m) * 60)
  (dms c.1, dms c.2)

/-- One rendered degrees/minutes/seconds group of `Position.__str__`
(numeric `:.3f` formatting abstracted to `toString` of the exact values). -/
def renderDMS (g : ℤ × ℤ × ℚ) (pos neg : String) : String :=
  toString g.1.natAbs ++ "deg" ++ toString g.2.1 ++ "min" ++ toString g.2.2
    ++ (if 0 ≤ g.1 then pos else neg)

/-- `Position.__str__`: first calls
`coordinates_decimal_to_dms((self.latitude, self.longitude))`, then builds the
coordinate string; the conditional parts evaluate `self.altitude` and
`self.bearing` (the properties, to compare them with `None`), so when either
underlying slot is `None` the corresponding `float(None)` raises `TypeError`
out of `__str__`. -/
def Position.pyStr (p : Position) : Except PyError String :=
  let g := coordinates_decimal_to_dms (p.latitude, p.longitude)
  match p.altitude with
  | Except.error e => Except.error e
  | Except.ok a =>
    match p.bearing with
    | Except.error e => Except.error e
    | Except.ok b =>
      Except.ok (renderDMS g.1 "N" "S" ++ " " ++ renderDMS g.2 "E" "W"
        ++ " " ++ toString a ++ "m " ++ toString b ++ "deg")

/-! ## DataStorage and DataConnector (`data.py` lines 204–252)

`DataStorage` is a `UserDict`; we represent the dictionary as an association
list with the most recent binding first, so that assignment is prepending and
`dict.get` is the first match.  This representation is extensionally the
mapping the Python dict holds: lookup returns the most recently assigned
value for a key. -/

abbrev DataStorage (V : Type) : Type := List (String × V)

/-- Dictionary assignment `self._data[key] = value`. -/
def DataStorage.set {V : Type} (d : DataStorage V) (key : String) (v : V) :
    DataStorage V :=
  (key, v) :: d

/-- Dictionary lookup as used by `dict.get(key)`: the value most recently
assigned to `key`, if any. -/
def DataStorage.get {V : Type} (d : DataStorage V) (key : String) : Option V :=
  (List.find? (fun p => p.1 == key) d).map (fun p => p.2)

/-- `DataConnector`: owns exactly one `DataStorage` (field `_data`). -/
structure DataConnector (V : Type) where
  _data : DataStorage V
deriving DecidableEq

/-- `DataConnector.__init__`: `self._data = DataStorage()` (empty). -/
def DataConnector.init {V : Type} : DataConnector V := ⟨[]⟩

/-- `DataConnector.load(self, key, __default=None)`:
`return self._data.get(key, __default)`.  Total: never raises. -/
def DataConnector.load {V : Type} (c : DataConnector V) (key : String)
    (fallback : V) : V :=
  (DataStorage.get c._data key).getD fallback

/-- `DataConnector.store(self, key, value)`: `self._data[key] = value`. -/
def DataConnector.store {V : Type} (c : DataConnector V) (key : String)
    (v : V) : DataConnector V :=
  ⟨DataStorage.set c._data key v⟩

/-- Run a sequence of `store` calls, in order, against a connector. -/
def applyStores {V : Type} (c : DataConnector V) (ops : List (String × V)) :
    DataConnector V :=
  ops.foldl (fun c kv => c.store kv.1 kv.2) c

/-- The value most recently passed to `store` under `key` in `ops`, if any. -/
def lastStore {V : Type} (ops : List (String × V)) (key : String) : Option V :=
  (List.find? (fun p => p.1 == key) ops.reverse).map (fun p => p.2)

/-! ## PollingDataConnector (`data.py` lines 255–331)

The fields of the connector are its cache `_data`, the flags `_running` and
`_connected`, and the thread configuration set by the two
`threading.Thread.__init__` calls in the source:

* `__init__` calls `threading.Thread.__init__(self, target=self._run,
  name=..., daemon=True)` — the name is the runner name built from API_URL;
* `reset` calls `threading.Thread.__init__(self)`, whose defaults are
  `target=None`, an automatic `Thread-N` name, and `daemon=None`
  (inherited from the creating thread, hence `False` under a non-daemon
  main thread).

We record of the thread configuration whether the target is `self._run`,
whether the name is the runner name, and the daemon flag. -/

structure PollingDataConnector (V : Type) where
  _data : DataStorage V
  _running : Bool
  _connected : Bool
  threadTargetIsRun : Bool
  threadNameIsRunner : Bool
  threadDaemon : Bool
deriving DecidableEq

/-- `PollingDataConnector.__init__`: `DataConnector.__init__(self)` (empty
cache), `threading.Thread.__init__(self, target=self._run, name=...,
daemon=True)`, `self._running = False`, `self._connected = False`. -/
def PollingDataConnector.init {V : Type} : PollingDataConnector V :=
  { _data := []
    _running := false
    _connected := false
    threadTargetIsRun := true
    threadNameIsRunner := true
    threadDaemon := true }

/-- The `connected` property: `return self._connected and self._running`. -/
def PollingDataConnector.connected {V : Type} (c : PollingDataConnector V) :
    Bool :=
  c._connected && c._running

/-- The state effect of `stop(self)`: `self._running = False`, then
`self.join()` when the thread is alive.  `join` blocks the caller but mutates
no connector field; the blocking behaviour is treated in the transition
system below. -/
def PollingDataConnector.stop {V : Type} (c : PollingDataConnector V) :
    PollingDataConnector V :=
  { c with _running := false }

/-- `reset(self)`: `self.stop()`, then `threading.Thread.__init__(self)`
(defaults: no target, automatic name, daemon inherited as `False`), then
`DataConnector.__init__(self)` (fresh empty cache), then
`self._connected = False`. -/
def PollingDataConnector.reset {V : Type} (c : PollingDataConnector V) :
    PollingDataConnector V :=
  { c.stop with
    threadTargetIsRun := false
    threadNameIsRunner := false
    threadDaemon := false
    _data := []
    _connected := false }

/-- Modelled from the spec: `start()` is implemented outside the two provided
source files (nothing in `src/` ever sets `_running` to `True`); per the spec
it is the transition "Idle/Stopped → Running.  Spawns the background loop.
No-op if already running."  Its state effect is to set the running flag; the
spawned loop itself is `runCycles` below and the `Step` transition system. -/
def PollingDataConnector.start {V : Type} (c : PollingDataConnector V) :
    PollingDataConnector V :=
  if c._running then c else { c with _running := true }

/-! ### The polling loop `_run` (`data.py` lines 277–305)

```
tps = 20
counter = 0
while self._running:
    if counter != 0:
        time.sleep(1 / tps)
        counter = (counter + 1) % tps
        continue
    target = time.time_ns() + int(1e9)
    try:
        self.refresh()
        self._connected = True
    except APIConnectionError as e:
        logging.getLogger(__name__).error(f"{e}")
        continue
    counter = (tps - int(max(0.0, (target - time.time_ns()) / 1e9) * tps)) % tps
```

`refresh` is abstract; each call either returns normally, raises
`APIConnectionError` (the connectivity error of the repository), or raises some
other exception.  A cycle is one execution of the `counter == 0` branch; the
sleeping iterations in between only sleep and update `counter`, leaving the
fields of the connector unchanged.  The nanosecond clock readings become exact
integers (`1e9` and `1/tps` floats are exact powers of two times integers at
this scale; we use exact arithmetic, writing `1000000000` for `int(1e9)`). -/

/-- Thread-join checks per second (`tps = 20` in `_run`). -/
def tps : ℕ := 20

/-- The counter computed after a successful `refresh`, from the remaining
nanoseconds `target - time.time_ns()`:
`(tps - int(max(0.0, remaining / 1e9) * tps)) % tps`.
`int()` of the non-negative product truncates, i.e. floors; Python `%` with a
positive modulus is `Int.emod`. -/
def sleepCounter (remainingNs : ℤ) : ℕ :=
  (((tps : ℤ) - max 0 remainingNs * (tps : ℤ) / 1000000000) % (tps : ℤ)).toNat

/-- How many `time.sleep(1 / tps)` iterations the `counter != 0` branch
performs before the next refresh: the loop repeats
`counter = (counter + 1) % tps` until the counter wraps to `0`.  Defined with
fuel `tps`, which suffices for every counter value below `tps` (the only
values the loop produces). -/
def sleepStepsAux : ℕ → ℕ → ℕ
  | 0, _ => 0
  | fuel + 1, c => if c = 0 then 0 else 1 + sleepStepsAux fuel ((c + 1) % tps)

/-- Sleep iterations executed from a given counter value. -/
def sleepIncrements (c : ℕ) : ℕ := sleepStepsAux tps c

/-- Outcome of one call to the abstract `refresh()`. -/
inductive RefreshOutcome
  | ok
  | connError
  | otherError
deriving DecidableEq

/-- The contribution of the environment to one refresh cycle: how `refresh()`
ends, and the value of `target - time.time_ns()` observed afterwards. -/
structure CycleInput where
  outcome : RefreshOutcome
  remainingNs : ℤ
deriving DecidableEq

/-- One refresh cycle (the `counter == 0` branch of `_run`): on success set
`self._connected = True` and compute the sleep counter; on
`APIConnectionError` log and `continue` — the connector is unchanged and the
counter keeps its value `0`, so the next iteration refreshes again
immediately; on any other exception the loop body raises and `_run`
terminates with that exception (`Except.error`). -/
def runRefresh {V : Type} (c : PollingDataConnector V) (i : CycleInput) :
    Except (PollingDataConnector V) (PollingDataConnector V × ℕ) :=
  match i.outcome with
  | RefreshOutcome.ok =>
      Except.ok ({ c with _connected := true }, sleepCounter i.remainingNs)
  | RefreshOutcome.connError => Except.ok (c, 0)
  | RefreshOutcome.otherError => Except.error c

/-- Iterated refresh cycles of the running loop (sleeping iterations between
cycles do not touch the connector). -/
def runCycles {V : Type} (c : PollingDataConnector V) :
    List CycleInput → Except (PollingDataConnector V) (PollingDataConnector V)
  | [] => Except.ok c
  | i :: rest =>
      match runRefresh c i with
      | Except.error c' => Except.error c'
      | Except.ok (c', _) => runCycles c' rest

/-! ### Interleaving model of the background thread and the caller

`_run` executes on a separate thread; `stop` executes on the thread of the caller.
We model the two threads as a labelled transition system.  The loop control
point is a phase: `idle` (thread not yet started), `atCheck` (at the
`while self._running` test), `refreshing` (inside the `try` block executing
`refresh()`), `sleeping` (in the `counter != 0` sleep iterations or the
post-refresh counter bookkeeping), `done` (the thread function has returned —
the thread is no longer alive).  `threading.Thread.join` returns exactly when
the thread is no longer alive, and a finished Python thread cannot be
started again, so:

* `stopReturn` (the return of `stop()`) is enabled only when the phase is
  `idle` (`is_alive()` was false, no join) or `done` (join returned);
* `startEv` (spec-modelled `start()`) is enabled only in phase `idle`. -/

inductive LoopPhase
  | idle
  | atCheck
  | refreshing
  | sleeping
  | done
deriving DecidableEq

/-- Joint state of the caller and the loop thread: the two connector flags
the loop reads and writes, and the loop phase. -/
structure Sys where
  running : Bool
  connectedFlag : Bool
  phase : LoopPhase
deriving DecidableEq

/-- Event labels: loop-thread events (`loopCheck`, `loopStore`,
`loopRefresh`, `loopSleep`) and caller events (`startEv`, `stopSet` for the
assignment `self._running = False` inside `stop()`, and `stopReturn` for
`stop()` returning to its caller after the `join`). -/
inductive Ev
  | startEv
  | loopCheck
  | loopStore
  | loopRefresh
  | loopSleep
  | stopSet
  | stopReturn
deriving DecidableEq

/-- One interleaved step of the system. -/
inductive Step : Sys → Ev → Sys → Prop
  | start_spawn (s : Sys) :
      s.phase = LoopPhase.idle →
      Step s Ev.startEv { s with running := true, phase := LoopPhase.atCheck }
  | check_continue (s : Sys) :
      s.phase = LoopPhase.atCheck → s.running = true →
      Step s Ev.loopCheck { s with phase := LoopPhase.refreshing }
  | check_exit (s : Sys) :
      s.phase = LoopPhase.atCheck → s.running = false →
      Step s Ev.loopCheck { s with phase := LoopPhase.done }
  | refresh_store (s : Sys) :
      s.phase = LoopPhase.refreshing →
      Step s Ev.loopStore s
  | refresh_done (s : Sys) (ok : Bool) (p : LoopPhase) :
      s.phase = LoopPhase.refreshing →
      p = LoopPhase.sleeping ∨ p = LoopPhase.atCheck →
      Step s Ev.loopRefresh
        { s with phase := p, connectedFlag := s.connectedFlag || ok }
  | sleep_step (s : Sys) :
      s.phase = LoopPhase.sleeping →
      Step s Ev.loopSleep { s with phase := LoopPhase.atCheck }
  | stop_set (s : Sys) :
      Step s Ev.stopSet { s with running := false }
  | stop_return (s : Sys) :
      s.phase = LoopPhase.idle ∨ s.phase = LoopPhase.done →
      Step s Ev.stopReturn s

/-- A valid trace from a state: the list of (event, post-state) pairs of
consecutive steps. -/
inductive ValidTrace : Sys → List (Ev × Sys) → Prop
  | nil (s : Sys) : ValidTrace s []
  | cons {s s' : Sys} {e : Ev} {tr : List (Ev × Sys)} :
      Step s e s' → ValidTrace s' tr → ValidTrace s ((e, s') :: tr)

/-! ## The lazy TTL-cached attribute
(`trains/__init__.py`, `_LazyStation`, lines 172–217)

The state touched by the `connections` property is the cached value
`_connections` (a list of connecting trains, or `None`), the expiry
`_cache_valid_until` (a `time.time()` float, initialised to `0`) and the
timeout `_cache_timeout` (default `60`).  Clock values are exact rationals.
The fetch callback `self._lazy_func(self.id)` is abstract: each read is
parametrised by whether a callback is configured and by the value the
callback would return at that read. -/

structure LazyState (V : Type) where
  _connections : Option V
  _cache_valid_until : ℚ
  _cache_timeout : ℚ
deriving DecidableEq

/-- `_LazyStation.__init__`: `_cache_valid_until = 0`,
`_cache_timeout = _cache_timeout` (default 60), `_connections` from the
`Station` initialiser (default `None`). -/
def LazyState.init {V : Type} (connections : Option V) (timeout : ℚ) :
    LazyState V :=
  { _connections := connections
    _cache_valid_until := 0
    _cache_timeout := timeout }

/-- The inner `request_data()`: call the callback, store the result in
`self._connections`, set `self._cache_valid_until = time.time() +
self._cache_timeout`, return the result. -/
def requestData {V : Type} (lazyResult : Option V) (now : ℚ)
    (s : LazyState V) : Option V × LazyState V :=
  (lazyResult,
    { s with _connections := lazyResult
             _cache_valid_until := now + s._cache_timeout })

/-- One read of the `connections` property.  `hasFunc` is whether
`self._lazy_func is not None`; `lazyResult` is what the callback would return
if invoked at this read; `now` is `time.time()`.  Returns the result, the new
state, and whether the callback was invoked.

Source logic: if no callback, return `self._connections`; else if
`time.time() > self._cache_valid_until`, fetch; else if
`self._connections is None`, fetch; else return the cached value. -/
def connectionsRead {V : Type} (hasFunc : Bool) (lazyResult : Option V)
    (now : ℚ) (s : LazyState V) : Option V × LazyState V × Bool :=
  if hasFunc = false then
    (s._connections, s, false)
  else if s._cache_valid_until < now then
    let r := requestData lazyResult now s
    (r.1, r.2, true)
  else if s._connections.isNone then
    let r := requestData lazyResult now s
    (r.1, r.2, true)
  else
    (s._connections, s, false)

/-! ## Theorems -/

/-- C7 counterexample: the claim "if a non-null actual value a is supplied,
the actual field equals a; and once constructed the actual field is never
null" fails on the code.  `ScheduledEvent.__init__` uses `actual or
scheduled`, which discards a falsy non-`None` `actual`: with `scheduled = 5`
and `actual = 0` the stored `actual` is `5`, not `0`; and with both arguments
`None` the stored `actual` is `None`. -/
theorem scheduledEvent_init_cex :
    (ScheduledEvent.init (some 5) (some 0)).actual ≠ some 0 ∧
    (ScheduledEvent.init none none).actual = none := by
  decide

/-- C7 (amended): for every `ScheduledEvent` constructed with scheduled value
`s`: if no actual value is supplied, the actual field equals `s`; if a truthy
actual value `a` is supplied, the actual field equals `a` (a falsy one —
`None`, `0` — is replaced by `s`); and once constructed the actual field is
non-null whenever `s` is non-null. -/
theorem scheduledEvent_init_actual (s a : Option ℤ) :
    (a = none → (ScheduledEvent.init s a).actual = s) ∧
    (pyTruthy a = true → (ScheduledEvent.init s a).actual = a) ∧
    (s ≠ none → (ScheduledEvent.init s a).actual ≠ none) := by
  refine ⟨fun h => ?_, fun h => ?_, fun h => ?_⟩
  · simp [ScheduledEvent.init, h, pyTruthy]
  · simp [ScheduledEvent.init, h]
  · cases ha : pyTruthy a with
    | false => simpa [ScheduledEvent.init, ha] using h
    | true =>
        cases a with
        | none => simp [pyTruthy] at ha
        | some n => simp [ScheduledEvent.init, ha]

/-- C7 witness: the amended statement at concrete inputs (`scheduled = 3`
with `actual` omitted, truthy `actual = 4`, and falsy-safe non-nullness). -/
theorem scheduledEvent_init_actual_witness :
    (ScheduledEvent.init (some 3) none).actual = some 3 ∧
    (ScheduledEvent.init (some 3) (some 4)).actual = some 4 ∧
    (ScheduledEvent.init (some 3) (some 0)).actual ≠ none :=
  ⟨(scheduledEvent_init_actual (some 3) none).1 rfl,
   (scheduledEvent_init_actual (some 3) (some 4)).2.1 (by decide),
   (scheduledEvent_init_actual (some 3) (some 0)).2.2 (by decide)⟩

/-- C8: the claim is right and the code is wrong.  For a `Position`
constructed without an altitude and heading (`Position(52.5, 13.4)`), the
`altitude` property evaluates `float(self._altitude)` = `float(None)`, which
raises `TypeError` instead of returning the absence marker; likewise
`bearing`; and `__str__` evaluates both properties (to compare them with
`None`), so `str(p)` raises `TypeError` as well, even though its own
`is not None` guards show the intent that absent fields be skipped. -/
theorem position_optional_accessors_raise :
    Position.altitude ⟨52.5, 13.4, none, none⟩ = Except.error PyError.typeError ∧
    Position.bearing ⟨52.5, 13.4, none, none⟩ = Except.error PyError.typeError ∧
    Position.pyStr ⟨52.5, 13.4, none, none⟩ = Except.error PyError.typeError :=
  ⟨rfl, rfl, rfl⟩

/-- C9: in every state (reachable or not) of a `PollingDataConnector`, the
observable `connected` property (`self._connected and self._running`) is true
only if `_running` is true; and immediately after `stop()` clears the running
flag, `connected` reads false to callers while the internal `_connected` flag
is unchanged, staying set until `reset()` clears it. -/
theorem connected_only_if_running {V : Type} (c : PollingDataConnector V) :
    (c.connected = true → c._running = true) ∧
    (c.stop).connected = false ∧
    (c.stop)._connected = c._connected ∧
    (c.reset)._connected = false := by
  refine ⟨fun h => ?_, ?_, rfl, rfl⟩
  · simp only [PollingDataConnector.connected, Bool.and_eq_true] at h
    exact h.2
  · simp [PollingDataConnector.connected, PollingDataConnector.stop]

/-- C9 witness: the statement at a concrete connector that is connected and
running, whose `connected` property reads `true`. -/
theorem connected_only_if_running_witness :
    (⟨[], true, true, true, true, true⟩ : PollingDataConnector ℤ)._running = true ∧
    (⟨[], true, true, true, true, true⟩ : PollingDataConnector ℤ).stop.connected = false ∧
    (⟨[], true, true, true, true, true⟩ : PollingDataConnector ℤ).stop._connected =
      (⟨[], true, true, true, true, true⟩ : PollingDataConnector ℤ)._connected ∧
    (⟨[], true, true, true, true, true⟩ : PollingDataConnector ℤ).reset._connected = false :=
  let h := connected_only_if_running (⟨[], true, true, true, true, true⟩ : PollingDataConnector ℤ)
  ⟨h.1 rfl, h.2.1, h.2.2.1, h.2.2.2⟩

/-- The cache dictionary after a sequence of `store` calls, looked up at a
key: the most recent binding in the sequence wins, and an absent key falls
through to whatever the starting dictionary held. -/
theorem get_applyStores {V : Type} (d : DataStorage V) (ops : List (String × V))
    (key : String) :
    DataStorage.get (applyStores ⟨d⟩ ops)._data key
      = (lastStore ops key).or (DataStorage.get d key) := by
  induction ops generalizing d with
  | nil => simp [applyStores, lastStore, DataStorage.get]
  | cons kv rest ih =>
      have hstep :
          applyStores (⟨d⟩ : DataConnector V) (kv :: rest)
            = applyStores ⟨(kv.1, kv.2) :: d⟩ rest := rfl
      rw [hstep, ih]
      simp only [lastStore, List.reverse_cons, List.find?_append,
        DataStorage.get, List.find?_cons]
      cases hfind : List.find? (fun p => p.1 == key) rest.reverse with
      | none =>
          cases hb : (kv.1 == key) with
          | false => simp [hb, Option.or]
          | true => simp [hb, Option.or]
      | some p =>
          simp [hfind, Option.or]

/-- C10: for every `DataConnector`, every key, and every fallback value,
after any sequence of `store` calls from a fresh connector,
`load(key, fallback)` returns the most recently stored value for `key`, and
the fallback when `key` was never stored (`lastStore` is then `none`, so
`getD` yields the fallback); `load` is a total function — it never fails. -/
theorem load_returns_most_recent_store {V : Type} (ops : List (String × V))
    (key : String) (fallback : V) :
    DataConnector.load (applyStores DataConnector.init ops) key fallback
      = (lastStore ops key).getD fallback ∧
    ((∀ kv ∈ ops, kv.1 ≠ key) →
      DataConnector.load (applyStores DataConnector.init ops) key fallback
        = fallback) := by
  have hmain :
      DataConnector.load (applyStores DataConnector.init ops) key fallback
        = (lastStore ops key).getD fallback := by
    show DataConnector.load (applyStores ⟨[]⟩ ops) key fallback = _
    rw [DataConnector.load, get_applyStores]
    simp [DataStorage.get]
  refine ⟨hmain, fun hnone => ?_⟩
  have : lastStore ops key = none := by
    rw [lastStore, List.find?_eq_none.mpr, Option.map_none']
    intro p hp
    simpa using hnone p (List.mem_reverse.mp hp)
  rw [hmain, this]
  rfl

/-- C10 witness: a concrete store sequence — `load` returns the most recent
value for a stored key and the fallback for an unstored key. -/
theorem load_returns_most_recent_store_witness :
    (DataConnector.load
        (applyStores DataConnector.init [("a", (1 : ℤ)), ("b", 2), ("a", 3)])
        "a" 99 = (lastStore [("a", (1 : ℤ)), ("b", 2), ("a", 3)] "a").getD 99) ∧
    (∀ kv ∈ [("a", (1 : ℤ)), ("b", 2), ("a", 3)], kv.1 ≠ "z") ∧
    DataConnector.load
        (applyStores DataConnector.init [("a", (1 : ℤ)), ("b", 2), ("a", 3)])
        "z" 99 = 99 :=
  ⟨(load_returns_most_recent_store [("a", (1 : ℤ)), ("b", 2), ("a", 3)] "a" 99).1,
   by decide,
   (load_returns_most_recent_store [("a", (1 : ℤ)), ("b", 2), ("a", 3)] "z" 99).2
     (by decide)⟩

/-- C5: whenever `refresh()` raises the connectivity error
(`APIConnectionError`) inside a polling cycle, the loop catches and logs it
and executes `continue`: the connector is unchanged (`_connected` is not set,
`_running` untouched), the loop does not terminate (the cycle yields
`Except.ok`), and the counter keeps its value `0`, so zero sleep increments
run and the next cycle refreshes immediately.  Every other exception from
`refresh()` is not suppressed: the cycle yields `Except.error` — the loop
body re-raises it and `_run` terminates with that exception. -/
theorem refresh_error_semantics {V : Type} (c : PollingDataConnector V)
    (i : CycleInput) :
    (i.outcome = RefreshOutcome.connError →
      runRefresh c i = Except.ok (c, 0) ∧ sleepIncrements 0 = 0) ∧
    (i.outcome = RefreshOutcome.otherError →
      runRefresh c i = Except.error c) := by
  refine ⟨fun h => ⟨?_, rfl⟩, fun h => ?_⟩ <;> simp [runRefresh, h]

/-- C5 witness: the statement at a concrete connector, for a connectivity
error and for another exception kind. -/
theorem refresh_error_semantics_witness :
    (runRefresh (PollingDataConnector.init : PollingDataConnector ℤ)
        ⟨RefreshOutcome.connError, 7⟩
      = Except.ok (PollingDataConnector.init, 0) ∧ sleepIncrements 0 = 0) ∧
    runRefresh (PollingDataConnector.init : PollingDataConnector ℤ)
        ⟨RefreshOutcome.otherError, 7⟩
      = Except.error PollingDataConnector.init :=
  ⟨(refresh_error_semantics PollingDataConnector.init
      ⟨RefreshOutcome.connError, 7⟩).1 rfl,
   (refresh_error_semantics PollingDataConnector.init
      ⟨RefreshOutcome.otherError, 7⟩).2 rfl⟩

/-- Closed form of the sleep-iteration count for the counter values the loop
produces (every counter is below `tps`): `0` sleeps from counter `0`, and
`tps - c` sleeps from counter `c ≠ 0`. -/
theorem sleepIncrements_eq : ∀ c < tps,
    sleepIncrements c = if c = 0 then 0 else tps - c := by
  decide

/-- C6 counterexample: the claim "whenever refresh() finishes early, the
loop sleeps in 1/20-second increments for approximately the remaining time"
fails on the code at `remaining = 10^9` ns — `refresh()` returned between
two equal `time.time_ns()` readings, an early finish the claim covers.  The
counter formula computes `(20 - int(1.0 * 20)) % 20 = 0`: the loop sleeps
zero increments and begins the next cycle immediately, although a full
period remains (the approximation bound fails). -/
theorem drift_sleep_full_period_cex :
    (0 : ℤ) < 1000000000 ∧
    sleepCounter 1000000000 = 0 ∧
    sleepIncrements (sleepCounter 1000000000) = 0 ∧
    ¬ ((1000000000 : ℤ)
        < ((sleepIncrements (sleepCounter 1000000000) : ℤ) + 1) * 50000000) := by
  decide

/-- C6 (amended): the drift-compensated scheduling of `_run`.  If `refresh()`
finishes at or after the target time of the cycle (`remaining ≤ 0`
nanoseconds), the computed counter is `0`, so zero sleep increments run and
the next cycle begins immediately.  If it finishes early and strictly after
the start of the cycle (`0 < remaining` below the full `10^9` ns period),
the loop sleeps `⌊remaining·tps/10^9⌋` increments of `1/tps` s =
`5·10^7` ns each, which approximates the remaining time to within one
increment: `sleeps·5·10^7 ≤ remaining < (sleeps+1)·5·10^7`.  At the boundary
`remaining = 10^9` (zero elapsed nanoseconds), the counter formula wraps
modulo `tps` and the loop sleeps zero increments, beginning the next cycle
immediately rather than sleeping the full remaining period. -/
theorem drift_compensated_sleep (r : ℤ) :
    (r ≤ 0 → sleepCounter r = 0 ∧ sleepIncrements (sleepCounter r) = 0) ∧
    (0 < r → r < 1000000000 →
      (sleepIncrements (sleepCounter r) : ℤ) * 50000000 ≤ r ∧
      r < ((sleepIncrements (sleepCounter r) : ℤ) + 1) * 50000000) ∧
    (r = 1000000000 →
      sleepCounter r = 0 ∧ sleepIncrements (sleepCounter r) = 0) := by
  refine ⟨?_, ?_, fun hr => by rw [hr]; exact ⟨by decide, by decide⟩⟩
  · intro h
    have hsc : sleepCounter r = 0 := by
      unfold sleepCounter
      rw [max_eq_left h]
      decide
    exact ⟨hsc, by rw [hsc]; rfl⟩
  · intro h0 h1
    have hform : sleepCounter r
        = (((20 : ℤ) - r * 20 / 1000000000) % 20).toNat := by
      unfold sleepCounter
      rw [max_eq_right h0.le]
      norm_num [tps]
    set k : ℤ := r * 20 / 1000000000 with hkdef
    have hk0 : 0 ≤ k := by omega
    have hk19 : k ≤ 19 := by omega
    have hcases : sleepCounter r = if k = 0 then 0 else (20 - k).toNat := by
      rw [hform]
      by_cases hk : k = 0
      · rw [if_pos hk, hk]
        norm_num
      · rw [if_neg hk]
        have h2 : ((20 : ℤ) - k) % 20 = 20 - k := by omega
        rw [h2]
    have hsi : (sleepIncrements (sleepCounter r) : ℤ) = k := by
      by_cases hk : k = 0
      · rw [hcases, if_pos hk, hk]
        rfl
      · rw [hcases, if_neg hk]
        have hlt : (20 - k).toNat < tps := by
          unfold tps
          omega
        have hne : (20 - k).toNat ≠ 0 := by omega
        rw [sleepIncrements_eq _ hlt, if_neg hne]
        unfold tps
        omega
    rw [hsi]
    omega

/-- C6 witness: a late finish (`remaining = -5` ns) sleeps zero increments
and starts the next cycle immediately; an early finish with `remaining =
3·10^8` ns sleeps within one increment of the remaining time; the boundary
`remaining = 10^9` ns wraps to zero increments. -/
theorem drift_compensated_sleep_witness :
    (sleepCounter (-5) = 0 ∧ sleepIncrements (sleepCounter (-5)) = 0) ∧
    ((sleepIncrements (sleepCounter 300000000) : ℤ) * 50000000 ≤ 300000000 ∧
      (300000000 : ℤ)
        < ((sleepIncrements (sleepCounter 300000000) : ℤ) + 1) * 50000000) ∧
    (sleepCounter 1000000000 = 0 ∧
      sleepIncrements (sleepCounter 1000000000) = 0) :=
  ⟨(drift_compensated_sleep (-5)).1 (by norm_num),
   (drift_compensated_sleep 300000000).2.1 (by norm_num) (by norm_num),
   (drift_compensated_sleep 1000000000).2.2 rfl⟩

/-- As long as no cycle raises a non-connectivity exception, the loop keeps
running: `runCycles` succeeds, preserves `_running`, and the `_connected`
flag afterwards is the initial flag or-ed with "some cycle succeeded". -/
theorem runCycles_connected {V : Type} (inputs : List CycleInput)
    (c : PollingDataConnector V)
    (hno : ∀ i ∈ inputs, i.outcome ≠ RefreshOutcome.otherError) :
    ∃ c' : PollingDataConnector V,
      runCycles c inputs = Except.ok c' ∧
      c'._running = c._running ∧
      c'._connected
        = (c._connected
            || inputs.any (fun i => i.outcome == RefreshOutcome.ok)) := by
  induction inputs generalizing c with
  | nil => exact ⟨c, rfl, rfl, by simp⟩
  | cons i rest ih =>
      have hi := hno i (List.mem_cons_self i rest)
      have hrest : ∀ j ∈ rest, j.outcome ≠ RefreshOutcome.otherError :=
        fun j hj => hno j (List.mem_cons_of_mem i hj)
      cases ho : i.outcome with
      | ok =>
          obtain ⟨c', h1, h2, h3⟩ := ih { c with _connected := true } hrest
          refine ⟨c', ?_, h2, ?_⟩
          · simpa [runCycles, runRefresh, ho] using h1
          · have hb : (RefreshOutcome.ok == RefreshOutcome.ok) = true := rfl
            simp [h3, ho, hb]
      | connError =>
          obtain ⟨c', h1, h2, h3⟩ := ih c hrest
          refine ⟨c', ?_, h2, ?_⟩
          · simpa [runCycles, runRefresh, ho] using h1
          · have hb : (RefreshOutcome.connError == RefreshOutcome.ok) = false :=
              rfl
            simp [h3, ho, hb]
      | otherError => exact absurd ho hi

/-- C1: after `start()` the background loop invokes `refresh()` immediately
(the counter starts at `0`, so the very first iteration is a refresh cycle —
a success in cycle `n` makes `connected` true within that same polling
period), and after any sequence of cycles none of which raises a
non-connectivity exception, the observable `connected` property is true if
and only if the `refresh()` of some cycle succeeded.  Since this holds for every
cycle sequence, it holds for every prefix: `connected` is never true before
the first successful refresh. -/
theorem connected_iff_refresh_succeeded {V : Type} (inputs : List CycleInput)
    (hno : ∀ i ∈ inputs, i.outcome ≠ RefreshOutcome.otherError) :
    ∃ c' : PollingDataConnector V,
      runCycles (PollingDataConnector.init.start) inputs = Except.ok c' ∧
      ((c'.connected = true) ↔ ∃ i ∈ inputs, i.outcome = RefreshOutcome.ok) := by
  obtain ⟨c', h1, h2, h3⟩ :=
    runCycles_connected inputs
      ((PollingDataConnector.init : PollingDataConnector V).start) hno
  refine ⟨c', h1, ?_⟩
  have hrun : c'._running = true := by
    rw [h2]
    rfl
  have hconn : c'._connected
      = inputs.any (fun i => i.outcome == RefreshOutcome.ok) := by
    rw [h3]
    rfl
  rw [PollingDataConnector.connected, hrun, hconn]
  simp [List.any_eq_true]

/-- C1 witness: a single immediately-successful cycle after `start()` leaves
the connector connected. -/
theorem connected_iff_refresh_succeeded_witness :
    (∀ i ∈ [(⟨RefreshOutcome.ok, 7⟩ : CycleInput)],
      i.outcome ≠ RefreshOutcome.otherError) ∧
    ∃ c' : PollingDataConnector ℤ,
      runCycles (PollingDataConnector.init.start) [⟨RefreshOutcome.ok, 7⟩]
        = Except.ok c' ∧
      ((c'.connected = true) ↔
        ∃ i ∈ [(⟨RefreshOutcome.ok, 7⟩ : CycleInput)],
          i.outcome = RefreshOutcome.ok) :=
  ⟨by decide,
   connected_iff_refresh_succeeded [⟨RefreshOutcome.ok, 7⟩] (by decide)⟩

/-- Once the loop thread has returned (`phase = done`), no step changes the
phase: a finished thread never resumes. -/
theorem Step.done_absorbing {s s' : Sys} {e : Ev} (h : Step s e s')
    (hd : s.phase = LoopPhase.done) : s'.phase = LoopPhase.done := by
  cases h <;> simp_all

/-- From a finished loop thread, no `loopRefresh` and no `loopStore` step can
occur: both require the loop to be at its `refreshing` control point. -/
theorem Step.no_loop_work_after_done {s s' : Sys} {e : Ev} (h : Step s e s')
    (hd : s.phase = LoopPhase.done) :
    e ≠ Ev.loopRefresh ∧ e ≠ Ev.loopStore := by
  cases h <;> simp_all

/-- Along any valid trace that starts with the loop thread finished, no
`loopRefresh` and no `loopStore` event occurs. -/
theorem ValidTrace.done_no_loop_work {s : Sys} {tr : List (Ev × Sys)}
    (h : ValidTrace s tr) :
    s.phase = LoopPhase.done →
    ∀ p ∈ tr, p.1 ≠ Ev.loopRefresh ∧ p.1 ≠ Ev.loopStore := by
  induction h with
  | nil => intro _ p hp; cases hp
  | cons hstep htr ih =>
      intro hd p hp
      cases hp with
      | head => exact hstep.no_loop_work_after_done hd
      | tail _ hmem => exact ih (hstep.done_absorbing hd) p hmem

/-- Splitting a valid trace at a distinguished event yields the step that
produced it and the valid remainder of the trace from its post-state. -/
theorem ValidTrace.split {s : Sys} {tr1 tr2 : List (Ev × Sys)} {e : Ev}
    {s1 : Sys} (h : ValidTrace s (tr1 ++ (e, s1) :: tr2)) :
    ∃ spre : Sys, Step spre e s1 ∧ ValidTrace s1 tr2 := by
  induction tr1 generalizing s with
  | nil =>
      cases h with
      | cons hstep htr => exact ⟨s, hstep, htr⟩
  | cons p rest ih =>
      cases h with
      | cons hstep htr => exact ih htr

/-- C2: in every valid interleaving of the loop thread with a caller, if
`stop()` returns (event `stopReturn`) on a connector whose loop thread had
been started (phase not `idle`), then at that moment the loop has fully
terminated (`phase = done` — join semantics: `stop` sets `_running = False`
and `join()` returns only once the thread is no longer alive), and after
`stop()` returns, no `refresh()` and no `store()` event of the loop occurs
anywhere in the rest of the trace. -/
theorem stop_join_semantics (s0 : Sys) (tr1 tr2 : List (Ev × Sys)) (s : Sys)
    (h : ValidTrace s0 (tr1 ++ (Ev.stopReturn, s) :: tr2))
    (hstarted : s.phase ≠ LoopPhase.idle) :
    s.phase = LoopPhase.done ∧
    ∀ p ∈ tr2, p.1 ≠ Ev.loopRefresh ∧ p.1 ≠ Ev.loopStore := by
  obtain ⟨spre, hstep, htr⟩ := h.split
  cases hstep with
  | stop_return hor =>
      cases hor with
      | inl hidle => exact absurd hidle hstarted
      | inr hdone => exact ⟨hdone, htr.done_no_loop_work hdone⟩

/-- C2 witness: a concrete complete run — start, one check, one store and
one successful refresh, one sleep, then `stop()` (flag cleared, loop exits
at the next check, join observes the finished thread) — satisfies the
theorem: at `stopReturn` the loop phase is `done` and nothing follows. -/
theorem stop_join_semantics_witness :
    (Sys.mk false true LoopPhase.done).phase ≠ LoopPhase.idle ∧
    ((Sys.mk false true LoopPhase.done).phase = LoopPhase.done ∧
      ∀ p ∈ ([] : List (Ev × Sys)),
        p.1 ≠ Ev.loopRefresh ∧ p.1 ≠ Ev.loopStore) :=
  ⟨by decide,
    stop_join_semantics ⟨false, false, LoopPhase.idle⟩
      [(Ev.startEv, ⟨true, false, LoopPhase.atCheck⟩),
       (Ev.loopCheck, ⟨true, false, LoopPhase.refreshing⟩),
       (Ev.loopStore, ⟨true, false, LoopPhase.refreshing⟩),
       (Ev.loopRefresh, ⟨true, true, LoopPhase.sleeping⟩),
       (Ev.loopSleep, ⟨true, true, LoopPhase.atCheck⟩),
       (Ev.stopSet, ⟨false, true, LoopPhase.atCheck⟩),
       (Ev.loopCheck, ⟨false, true, LoopPhase.done⟩)]
      [] ⟨false, true, LoopPhase.done⟩
      (ValidTrace.cons (Step.start_spawn _ rfl)
        (ValidTrace.cons (Step.check_continue _ rfl rfl)
          (ValidTrace.cons (Step.refresh_store _ rfl)
            (ValidTrace.cons (Step.refresh_done _ true _ rfl (Or.inl rfl))
              (ValidTrace.cons (Step.sleep_step _ rfl)
                (ValidTrace.cons (Step.stop_set _)
                  (ValidTrace.cons (Step.check_exit _ rfl rfl)
                    (ValidTrace.cons (Step.stop_return _ (Or.inr rfl))
                      (ValidTrace.nil _)))))))))
      (by decide)⟩

/-- C3 counterexample: the claim "indistinguishable from a freshly
constructed one" fails on the code.  `reset()` re-initialises the thread with
`threading.Thread.__init__(self)` — without `target=self._run`, the runner
name, or `daemon=True` that `__init__` passes — so a started-stopped-reset
connector differs from a freshly constructed one in its thread
configuration (here: the thread target is no longer `_run`). -/
theorem reset_not_fresh_cex :
    (PollingDataConnector.init.start.stop.reset : PollingDataConnector ℤ)
      ≠ PollingDataConnector.init := by
  decide

/-- C3 (amended): `reset()` first performs `stop()` (idempotently: resetting
an already-stopped connector gives the same state), then yields a connector
with an empty cache, `connected == false` and `_running == false`, agreeing
with a freshly constructed connector on cache, running and connectivity
state — though not on the reinitialised thread configuration — and reusable
with a subsequent (spec-modelled) `start()`, after which the background
refresh loop runs and a successful refresh cycle reconnects it. -/
theorem reset_yields_reusable_fresh_state {V : Type}
    (c : PollingDataConnector V) :
    c.reset = c.stop.reset ∧
    (c.reset)._data = [] ∧
    (c.reset).connected = false ∧
    (c.reset)._running = false ∧
    (c.reset)._data = (PollingDataConnector.init : PollingDataConnector V)._data ∧
    (c.reset)._running = (PollingDataConnector.init : PollingDataConnector V)._running ∧
    (c.reset)._connected = (PollingDataConnector.init : PollingDataConnector V)._connected ∧
    (c.reset).start._running = true ∧
    (∃ c' : PollingDataConnector V,
      runCycles (c.reset.start) [⟨RefreshOutcome.ok, 0⟩] = Except.ok c' ∧
      c'.connected = true) :=
  ⟨rfl, rfl, rfl, rfl, rfl, rfl, rfl, rfl, ⟨_, rfl, rfl⟩⟩

/-- C4 counterexample: the claim "at most one fetch-callback invocation per
ttl window ... for every value the callback may return (including the
absence marker)" fails on the code.  With `_cache_timeout = 60` and a
callback returning `None`, a first read at `time.time() = 1` invokes the
callback, and a second read at `time.time() = 2` — well within the window —
invokes it again: the `self._connections is None` branch of `connections`
cannot distinguish "never fetched" from "fetched and got `None`". -/
theorem lazy_ttl_absence_marker_cex :
    ((connectionsRead true (none : Option ℤ) 1 (LazyState.init none 60)).2.2
      = true) ∧
    ((connectionsRead true (none : Option ℤ) 2
        (connectionsRead true (none : Option ℤ) 1
          (LazyState.init none 60)).2.1).2.2 = true) := by
  norm_num [connectionsRead, requestData, LazyState.init]

/-- C4 (amended): for a lazy cached attribute with a configured fetch
callback and ttl `T`, under single-threaded access, at most one
fetch-callback invocation occurs per ttl window for every *non-absent* value
the callback returns: the first read (at `t1 > 0`, past the initial expiry
`0`) fetches and caches `some v` with expiry `t1 + T`; a second read within
`T` seconds of that fetch returns the identical cached value without
invoking the callback (whatever the callback would now return); a read after
`T` seconds triggers exactly one additional fetch, restarting the window.
If the callback returns the absence marker, it is re-invoked on every read,
even within the window. -/
theorem lazy_ttl_at_most_one_fetch {V : Type} (v : V) (c0 : Option V)
    (T t1 t2 t3 : ℚ) (res2 res3 : Option V)
    (h1 : 0 < t1) (h3 : t2 ≤ t1 + T) (h4 : t1 + T < t3) :
    connectionsRead true (some v) t1 (LazyState.init c0 T)
      = (some v, ⟨some v, t1 + T, T⟩, true) ∧
    connectionsRead true res2 t2 (⟨some v, t1 + T, T⟩ : LazyState V)
      = (some v, ⟨some v, t1 + T, T⟩, false) ∧
    connectionsRead true res3 t3 (⟨some v, t1 + T, T⟩ : LazyState V)
      = (res3, ⟨res3, t3 + T, T⟩, true) ∧
    connectionsRead true none t1 (LazyState.init c0 T)
      = (none, ⟨none, t1 + T, T⟩, true) ∧
    (connectionsRead true res2 t2 (⟨none, t1 + T, T⟩ : LazyState V)).2.2
      = true := by
  have hno2 : ¬ (t1 + T < t2) := not_lt.mpr h3
  refine ⟨?_, ?_, ?_, ?_, ?_⟩
  · simp [connectionsRead, requestData, LazyState.init, h1]
  · simp [connectionsRead, requestData, hno2]
  · simp [connectionsRead, requestData, h4]
  · simp [connectionsRead, requestData, LazyState.init, h1]
  · simp [connectionsRead, requestData, hno2]

/-- C4 witness: the amended statement at concrete inputs (`T = 60`, first
fetch at `t1 = 1`, cached read at `t2 = 30`, expired read at `t3 = 100`). -/
theorem lazy_ttl_at_most_one_fetch_witness :
    ((0 : ℚ) < 1 ∧ (30 : ℚ) ≤ 1 + 60 ∧ (1 : ℚ) + 60 < 100) ∧
    (connectionsRead true (some (5 : ℤ)) 1 (LazyState.init none 60)
      = (some 5, ⟨some 5, 1 + 60, 60⟩, true) ∧
    connectionsRead true (some (9 : ℤ)) 30 (⟨some 5, 1 + 60, 60⟩ : LazyState ℤ)
      = (some 5, ⟨some 5, 1 + 60, 60⟩, false) ∧
    connectionsRead true (some (11 : ℤ)) 100 (⟨some 5, 1 + 60, 60⟩ : LazyState ℤ)
      = (some 11, ⟨some 11, 100 + 60, 60⟩, true) ∧
    connectionsRead true (none : Option ℤ) 1 (LazyState.init none 60)
      = (none, ⟨none, 1 + 60, 60⟩, true) ∧
    (connectionsRead true (some (9 : ℤ)) 30
        (⟨none, 1 + 60, 60⟩ : LazyState ℤ)).2.2 = true) :=
  ⟨⟨by norm_num, by norm_num, by norm_num⟩,
   lazy_ttl_at_most_one_fetch 5 none 60 1 30 100 (some 9) (some 11)
     (by norm_num) (by norm_num) (by norm_num)⟩

end Onboardapis
